import Mathlib

/-!
Shallow embedding of the two C stub functions of this repository:
`gnome_url_show` (src/libgnome-stubs/libgnome2-stub.c) and
`gnome_vfs_init` (src/libgnome-stubs/libgnomevfs2-stub.c).

The URL opener forks, execs `/usr/bin/xdg-open <url>` in the child, waits
for the child in the parent and translates the wait status into a boolean.
The OS-dependent outcomes (fork result, exec result, waitpid result) are
supplied as an explicit environment value; the function itself is the pure
translation of the C control flow over that environment.  Wait status
words use the Linux encoding, so the libc macros `WIFEXITED` and
`WEXITSTATUS` are embedded as arithmetic on `Nat`.
-/

/-- Embedding of the libc macro `WIFEXITED(status)`:
`__WTERMSIG(status) == 0` where `__WTERMSIG(status) = status & 0x7f`. -/
def WIFEXITED (wstatus : Nat) : Bool := wstatus % 128 == 0

/-- Embedding of the libc macro `WEXITSTATUS(status)`:
`(status & 0xff00) >> 8`. -/
def WEXITSTATUS (wstatus : Nat) : Nat := (wstatus / 256) % 256

/-- Wait status word produced when a child calls `exit(code)`:
the low 8 bits of `code` shifted into bits 8..15. -/
def exitStatusWord (code : Nat) : Nat := (code % 256) * 256

/-- The fixed absolute path of the desktop URL handler, from
`char *xdg_open[] = { "/usr/bin/xdg-open", (char *)url, NULL };`. -/
def handlerPath : String := "/usr/bin/xdg-open"

/-- The argument vector the child passes to `execvp`, from
`char *xdg_open[] = { "/usr/bin/xdg-open", (char *)url, NULL };`
(the terminating NULL is implicit in the list representation). -/
def xdg_open_argv (url : String) : List String := [handlerPath, url]

/-- Embedding of the `err(fmt, ...)` macro of libgnome2-stub.c:
`fprintf(stderr, "%s(): error: " fmt "\n", __func__, ...)` with
`__func__ = "gnome_url_show"`. -/
def errMsg (fmt : String) : String := "gnome_url_show(): error: " ++ fmt ++ "\n"

/-- Outcome of the `execvp` call in the child process: either the program
image is replaced and the resulting process eventually terminates with the
given wait status word, or `execvp` returns `-1` with the given
`strerror(errno)` text. -/
inductive ExecOutcome where
  | success (finalWStatus : Nat)
  | failure (errnoText : String)
deriving DecidableEq, Repr

/-- Outcome of the `waitpid` call in the parent: either it returns `-1`
with the given `strerror(errno)` text, or it succeeds and stores the
child's wait status word. -/
inductive WaitOutcome where
  | fail (errnoText : String)
  | ok
deriving DecidableEq, Repr

/-- OS environment for one call of `gnome_url_show`: either `fork`
returns a negative value with the given `strerror(errno)` text, or the
fork succeeds and the exec and wait calls have the given outcomes. -/
inductive OSWorld where
  | forkFail (errnoText : String)
  | forkOk (ex : ExecOutcome) (w : WaitOutcome)
deriving DecidableEq, Repr

/-- Behaviour of the `pid == 0` branch of `gnome_url_show` (the child):
if `execvp` succeeds the child becomes xdg-open and terminates with the
environment-supplied status; if it returns `-1` the child prints a
diagnostic and calls `exit(1)`.  Result: the wait status word the parent
will observe, and the lines the child wrote to the shared stderr. -/
def childRun : ExecOutcome → Nat × List String
  | .success w => (w, [])
  | .failure e => (exitStatusWord 1, [errMsg ("spawning xdg-open failed: " ++ e)])

/-- Observable result of one call of `gnome_url_show`. -/
structure CallResult where
  /-- the C return value, `1` as `true` and `0` as `false` -/
  ret : Bool
  /-- diagnostic lines the parent wrote to stderr -/
  parentStderr : List String
  /-- diagnostic lines the child wrote to the shared stderr -/
  childStderr : List String
  /-- whether the fork succeeded, i.e. a child process was created -/
  childCreated : Bool
  /-- whether the parent invoked `waitpid` on the child -/
  waitCalled : Bool
  /-- the argument vector handed to `execvp` in the child, when one ran -/
  childArgv : Option (List String)
deriving DecidableEq, Repr

/-- Embedding of `gnome_url_show(const char *url, void **error)` from
src/libgnome-stubs/libgnome2-stub.c.  The body never mentions `error`,
so the slot (of arbitrary type) is returned exactly as supplied.
Control flow: `fork`; on `pid < 0` log and return 0; in the child run
`execvp` (see `childRun`); in the parent `waitpid`, on `-1` log and
return 0; then `WIFEXITED`/`WEXITSTATUS` translate the status word. -/
def gnome_url_show (url : String) {α : Type} (error : α) (world : OSWorld) :
    CallResult × α :=
  match world with
  | .forkFail e =>
      ({ ret := false
         parentStderr := [errMsg ("fork failed: " ++ e)]
         childStderr := []
         childCreated := false
         waitCalled := false
         childArgv := none }, error)
  | .forkOk ex w =>
      let child := childRun ex
      let wstatus := child.1
      match w with
      | .fail e =>
          ({ ret := false
             parentStderr := [errMsg ("waitpid failed: " ++ e ++ "\n")]
             childStderr := child.2
             childCreated := true
             waitCalled := true
             childArgv := some (xdg_open_argv url) }, error)
      | .ok =>
          if WIFEXITED wstatus then
            ({ ret := WEXITSTATUS wstatus == 0
               parentStderr := []
               childStderr := child.2
               childCreated := true
               waitCalled := true
               childArgv := some (xdg_open_argv url) }, error)
          else
            ({ ret := false
               parentStderr := [errMsg "xdg-open terminated abnormally"]
               childStderr := child.2
               childCreated := true
               waitCalled := true
               childArgv := some (xdg_open_argv url) }, error)

/-- Embedding of `gnome_vfs_init(void)` from
src/libgnome-stubs/libgnomevfs2-stub.c: `return 1;`.  The `Unit`
argument stands for the empty C parameter list. -/
def gnome_vfs_init (_u : Unit) : Int := 1

/-- C1: for every URL, if the fork succeeded, the wait succeeded, and the
child exited normally with status code 0, `gnome_url_show` returns
success (true). -/
theorem url_show_exit_zero_returns_true (url : String) {α : Type} (e : α)
    (w : Nat) (hx : WIFEXITED w = true) (h0 : WEXITSTATUS w = 0) :
    (gnome_url_show url e (.forkOk (.success w) .ok)).1.ret = true := by
  simp [gnome_url_show, childRun, hx, h0]

/-- Witness for C1 at url "https://example.com", wait status word 0
(normal exit with code 0). -/
theorem url_show_exit_zero_returns_true_witness :
    (gnome_url_show "https://example.com" () (.forkOk (.success 0) .ok)).1.ret
      = true :=
  url_show_exit_zero_returns_true "https://example.com" () 0 (by decide)
    (by decide)

/-- C2: for every URL and every exec outcome, if the child exited
normally with a nonzero status code, `gnome_url_show` returns failure
and the parent emits no diagnostic for that outcome. -/
theorem url_show_nonzero_exit_silent_failure (url : String) {α : Type}
    (e : α) (ex : ExecOutcome)
    (hx : WIFEXITED (childRun ex).1 = true)
    (hn : WEXITSTATUS (childRun ex).1 ≠ 0) :
    (gnome_url_show url e (.forkOk ex .ok)).1.ret = false ∧
      (gnome_url_show url e (.forkOk ex .ok)).1.parentStderr = [] := by
  simp [gnome_url_show, hx, hn]

/-- Witness for C2 at url "bogus://nothing", wait status word 256
(normal exit with code 1). -/
theorem url_show_nonzero_exit_silent_failure_witness :
    (gnome_url_show "bogus://nothing" () (.forkOk (.success 256) .ok)).1.ret
        = false ∧
      (gnome_url_show "bogus://nothing" ()
        (.forkOk (.success 256) .ok)).1.parentStderr = [] :=
  url_show_nonzero_exit_silent_failure "bogus://nothing" () (.success 256)
    (by decide) (by decide)

/-- C3: if `execvp` fails (handler missing or not executable), the child
logs a diagnostic and exits with the nonzero status 1, and the parent
returns failure with a diagnostic on the shared stderr. -/
theorem url_show_exec_failure (url : String) {α : Type} (e : α)
    (errnoText : String) :
    (childRun (.failure errnoText)).1 = exitStatusWord 1 ∧
      exitStatusWord 1 ≠ 0 ∧
      WIFEXITED (childRun (.failure errnoText)).1 = true ∧
      WEXITSTATUS (childRun (.failure errnoText)).1 ≠ 0 ∧
      (gnome_url_show url e (.forkOk (.failure errnoText) .ok)).1.ret
        = false ∧
      (gnome_url_show url e
          (.forkOk (.failure errnoText) .ok)).1.childStderr
        = [errMsg ("spawning xdg-open failed: " ++ errnoText)] := by
  refine ⟨rfl, by decide, ?_, ?_, ?_, ?_⟩ <;>
    simp [gnome_url_show, childRun, WIFEXITED, WEXITSTATUS, exitStatusWord]

/-- C4: if the wait succeeded but the child terminated abnormally (the
status word is not a normal exit), `gnome_url_show` logs a diagnostic to
stderr and returns failure. -/
theorem url_show_abnormal_termination (url : String) {α : Type} (e : α)
    (w : Nat) (hx : WIFEXITED w = false) :
    (gnome_url_show url e (.forkOk (.success w) .ok)).1.ret = false ∧
      (gnome_url_show url e (.forkOk (.success w) .ok)).1.parentStderr
        = [errMsg "xdg-open terminated abnormally"] := by
  simp [gnome_url_show, childRun, hx]

/-- Witness for C4 at wait status word 9 (killed by SIGKILL). -/
theorem url_show_abnormal_termination_witness :
    (gnome_url_show "https://example.com" ()
        (.forkOk (.success 9) .ok)).1.ret = false ∧
      (gnome_url_show "https://example.com" ()
          (.forkOk (.success 9) .ok)).1.parentStderr
        = [errMsg "xdg-open terminated abnormally"] :=
  url_show_abnormal_termination "https://example.com" () 9 (by decide)

/-- C5: if `fork` fails, `gnome_url_show` logs a diagnostic to stderr
and returns failure, without creating a child and without any exec or
wait step. -/
theorem url_show_fork_failure (url : String) {α : Type} (e : α)
    (errnoText : String) :
    (gnome_url_show url e (.forkFail errnoText)).1.ret = false ∧
      (gnome_url_show url e (.forkFail errnoText)).1.parentStderr
        = [errMsg ("fork failed: " ++ errnoText)] ∧
      (gnome_url_show url e (.forkFail errnoText)).1.childCreated = false ∧
      (gnome_url_show url e (.forkFail errnoText)).1.childStderr = [] ∧
      (gnome_url_show url e (.forkFail errnoText)).1.waitCalled = false := by
  simp [gnome_url_show]

/-- C6: if the `waitpid` call itself fails, `gnome_url_show` logs a
diagnostic to stderr and returns failure. -/
theorem url_show_wait_failure (url : String) {α : Type} (e : α)
    (ex : ExecOutcome) (errnoText : String) :
    (gnome_url_show url e (.forkOk ex (.fail errnoText))).1.ret = false ∧
      (gnome_url_show url e (.forkOk ex (.fail errnoText))).1.parentStderr
        = [errMsg ("waitpid failed: " ++ errnoText ++ "\n")] := by
  simp [gnome_url_show]

/-- C7: on every execution path on which the fork succeeded (and only on
those), the parent invokes `waitpid` on the child before the call
returns, so no created child is left unreaped. -/
theorem url_show_always_reaps (url : String) {α : Type} (e : α)
    (world : OSWorld) :
    (gnome_url_show url e world).1.waitCalled
      = (gnome_url_show url e world).1.childCreated := by
  cases world with
  | forkFail t => simp [gnome_url_show]
  | forkOk ex w =>
      cases w <;>
        simp [gnome_url_show, xdg_open_argv] <;>
        by_cases hx : WIFEXITED (childRun ex).1 <;> simp [hx]

/-- C8: `gnome_vfs_init` returns the same fixed truthy value 1 on every
call; as a pure constant it has no side effects. -/
theorem vfs_init_constant_true (u v : Unit) :
    gnome_vfs_init u = 1 ∧ gnome_vfs_init u ≠ 0 ∧
      gnome_vfs_init u = gnome_vfs_init v :=
  ⟨rfl, by simp [gnome_vfs_init], rfl⟩

/-- Witness for C8 at the unique concrete argument. -/
theorem vfs_init_constant_true_witness :
    gnome_vfs_init () = 1 ∧ gnome_vfs_init () ≠ 0 ∧
      gnome_vfs_init () = gnome_vfs_init () :=
  vfs_init_constant_true () ()

/-- C9: on every execution path, for every type and value of the
error-output parameter, `gnome_url_show` returns the slot exactly as the
caller provided it: it is never written. -/
theorem url_show_never_writes_error (url : String) {α : Type} (e : α)
    (world : OSWorld) : (gnome_url_show url e world).2 = e := by
  cases world with
  | forkFail t => rfl
  | forkOk ex w =>
      cases w with
      | fail t => rfl
      | ok =>
          by_cases hx : WIFEXITED (childRun ex).1 <;>
            simp [gnome_url_show, hx]

/-- C10: the return value of `gnome_url_show` does not depend on the URL:
under the same OS outcomes any two URLs yield the same boolean, the same
diagnostics, the same reaping behaviour; and whenever a child ran, its
argument vector is exactly the handler path followed by the URL,
unchanged. -/
theorem url_show_url_independent (url₁ url₂ : String) {α : Type} (e : α)
    (world : OSWorld) :
    ((gnome_url_show url₁ e world).1.ret
        = (gnome_url_show url₂ e world).1.ret ∧
      (gnome_url_show url₁ e world).1.parentStderr
        = (gnome_url_show url₂ e world).1.parentStderr ∧
      (gnome_url_show url₁ e world).1.childStderr
        = (gnome_url_show url₂ e world).1.childStderr ∧
      (gnome_url_show url₁ e world).1.waitCalled
        = (gnome_url_show url₂ e world).1.waitCalled) ∧
      ∀ ex w, (gnome_url_show url₁ e (.forkOk ex w)).1.childArgv
        = some [handlerPath, url₁] := by
  constructor
  · cases world with
    | forkFail t => exact ⟨rfl, rfl, rfl, rfl⟩
    | forkOk ex w =>
        cases w with
        | fail t => exact ⟨rfl, rfl, rfl, rfl⟩
        | ok =>
            by_cases hx : WIFEXITED (childRun ex).1 <;>
              simp [gnome_url_show, hx]
  · intro ex w
    cases w with
    | fail t => rfl
    | ok =>
        by_cases hx : WIFEXITED (childRun ex).1 <;>
          simp [gnome_url_show, hx, xdg_open_argv]
